import Mathlib

/-!
Verification of the CHRE core runtime against its specification.

Shallow embedding of the relevant source functions:
* `core/sensors.cc` (SensorRequest and its merge operation),
* `core/wifi_request_manager.cc` (scan-monitor state machine),
* `core/event_loop.cc` (post/start/distribute/deliver/shutdown drain),
* `host/common/socket_client.cc` (reconnect backoff loop),
* the generic `RequestMultiplexer` (header absent; modelled from the spec).

Machine integers are modelled as `Nat`; none of the embedded code relies on
overflow.  Side effects that matter to the properties (posted async results,
free callbacks, entry-point invocations) are returned explicitly as traces.
-/

namespace Chre

/-! ## Sensor requests (`core/sensors.cc`) -/

/-- Sensor modes, `core/include/chre/core/sensors.h` via `core/sensors.cc`. -/
inductive SensorMode where
  | off
  | passiveOneShot
  | passiveContinuous
  | activeOneShot
  | activeContinuous
deriving DecidableEq, BEq

/-- `SensorRequest`: mode plus interval and latency in nanoseconds. -/
structure SensorRequest where
  mode : SensorMode
  interval : Nat
  latency : Nat
deriving DecidableEq

/-- The default-constructed `SensorRequest()`: `(Off, 0, 0)`
(`core/sensors.cc:85`). -/
def sensorRequestDefault : SensorRequest := ⟨SensorMode.off, 0, 0⟩

/-- `SensorRequest::isEquivalentTo` (`core/sensors.cc:95`). -/
def SensorRequest.isEquivalentTo (a b : SensorRequest) : Bool :=
  a.mode == b.mode && a.interval == b.interval && a.latency == b.latency

/-- `SensorRequest::generateIntersectionOf` (`core/sensors.cc:101`):
mode is the highest-priority of the two, interval and latency are plain
minima. -/
def SensorRequest.generateIntersectionOf (a b : SensorRequest) : SensorRequest :=
  let minimalInterval := min a.interval b.interval
  let minimalLatency := min a.latency b.latency
  let maximalSensorMode :=
    if a.mode == SensorMode.activeContinuous
        || b.mode == SensorMode.activeContinuous then
      SensorMode.activeContinuous
    else if a.mode == SensorMode.activeOneShot
        || b.mode == SensorMode.activeOneShot then
      SensorMode.activeOneShot
    else if a.mode == SensorMode.passiveContinuous
        || b.mode == SensorMode.passiveContinuous then
      SensorMode.passiveContinuous
    else if a.mode == SensorMode.passiveOneShot
        || b.mode == SensorMode.passiveOneShot then
      SensorMode.passiveOneShot
    else
      SensorMode.off
  ⟨maximalSensorMode, minimalInterval, minimalLatency⟩

/-! ## Wifi scan-monitor state machine (`core/wifi_request_manager.cc`) -/

/-- Entry of the pending-transition FIFO (`ScanMonitorStateTransition`;
the cookie is irrelevant to the verified properties and omitted). -/
structure ScanMonitorStateTransition where
  nanoappInstanceId : Nat
  enable : Bool
deriving DecidableEq

/-- The two state variables of `WifiRequestManager` used by the scan-monitor
machine: `mScanMonitorNanoapps` and `mScanMonitorStateTransitions`. -/
structure WifiState where
  scanMonitorNanoapps : List Nat
  scanMonitorStateTransitions : List ScanMonitorStateTransition
deriving DecidableEq

/-- An async-result event posted to a nanoapp
(`chreAsyncResult`, reduced to the fields the claims mention). -/
structure WifiAsyncResult where
  targetInstanceId : Nat
  success : Bool
  errorCode : Nat
deriving DecidableEq

/-- Modelled from the spec: `DynamicVector::find` (header not under `src/`)
returns the index of the first matching element, or `size()` when the element
is absent; this is the semantics the call sites in
`core/wifi_request_manager.cc` rely on. -/
def dynFind (l : List Nat) (x : Nat) : Nat :=
  l.findIdx (fun y => y == x)

/-- `WifiRequestManager::nanoappHasScanMonitorRequest`
(`core/wifi_request_manager.cc:110`).  Faithful to the source, including the
comparison `index == mScanMonitorNanoapps.size()`; the second component
models the `nanoappIndex` out-parameter. -/
def nanoappHasScanMonitorRequest (s : WifiState) (instanceId : Nat) :
    Bool × Nat :=
  let index := dynFind s.scanMonitorNanoapps instanceId
  let hasScanMonitorRequest := index == s.scanMonitorNanoapps.length
  (hasScanMonitorRequest, index)

/-- `WifiRequestManager::scanMonitorIsEnabled`
(`core/wifi_request_manager.cc:106`). -/
def scanMonitorIsEnabled (s : WifiState) : Bool :=
  !s.scanMonitorNanoapps.isEmpty

/-- `WifiRequestManager::scanMonitorIsInRequestedState`
(`core/wifi_request_manager.cc:121`). -/
def scanMonitorIsInRequestedState (s : WifiState)
    (requestedState nanoappHasRequest : Bool) : Bool :=
  requestedState == scanMonitorIsEnabled s
    || (!requestedState
        && (!nanoappHasRequest || s.scanMonitorNanoapps.length > 1))

/-- `WifiRequestManager::scanMonitorStateTransitionIsRequired`
(`core/wifi_request_manager.cc:127`). -/
def scanMonitorStateTransitionIsRequired (s : WifiState)
    (requestedState nanoappHasRequest : Bool) : Bool :=
  (requestedState && s.scanMonitorNanoapps.isEmpty)
    || (!requestedState && nanoappHasRequest
        && s.scanMonitorNanoapps.length == 1)

/-- `WifiRequestManager::updateNanoappScanMonitoringList`
(`core/wifi_request_manager.cc:150`), faithful to the source:
the `hasExistingRequest` value comes from `nanoappHasScanMonitorRequest`.
`DynamicVector::push_back` is modelled as always succeeding (the vector
reserves space); `erase` out of range is a no-op (`List.eraseIdx`). -/
def updateNanoappScanMonitoringList (s : WifiState) (enable : Bool)
    (instanceId : Nat) : Bool × WifiState :=
  let r := nanoappHasScanMonitorRequest s instanceId
  let hasExistingRequest := r.1
  let nanoappIndex := r.2
  if enable then
    if !hasExistingRequest then
      (true, { s with
        scanMonitorNanoapps := s.scanMonitorNanoapps ++ [instanceId] })
    else
      (true, s)
  else
    if !hasExistingRequest then
      (false, s)
    else
      (true, { s with
        scanMonitorNanoapps := s.scanMonitorNanoapps.eraseIdx nanoappIndex })

/-- `WifiRequestManager::postScanMonitorAsyncResultEvent`
(`core/wifi_request_manager.cc:180`): the scan-monitoring list is updated
first (only when `success`), and the event is posted only when that update
succeeds; allocation and posting themselves are modelled as succeeding.
Returns (event posted, new state, posted events). -/
def postScanMonitorAsyncResultEvent (s : WifiState) (nanoappInstanceId : Nat)
    (success enable : Bool) (errorCode : Nat) :
    Bool × WifiState × List WifiAsyncResult :=
  if !success then
    (true, s, [⟨nanoappInstanceId, success, errorCode⟩])
  else
    let u := updateNanoappScanMonitoringList s enable nanoappInstanceId
    if u.1 then
      (true, u.2, [⟨nanoappInstanceId, success, errorCode⟩])
    else
      (false, u.2, [])

/-- The `while` loop of
`WifiRequestManager::handleScanMonitorStateChangeSync`
(`core/wifi_request_manager.cc:232`).  `driver` is the list of synchronous
results the platform driver will return, consumed one per call; `success`
and `errorCode` are the values computed for the completed transition, reused
verbatim by the loop when posting events for already-satisfied requests.
The last component is true when `postScanMonitorAsyncResultEventFatal`
would have hit `FATAL_ERROR`.  Fuel is the pending-queue length. -/
def wifiPendingLoop (driver : List Bool) (success : Bool) (errorCode : Nat) :
    Nat → WifiState → WifiState × List WifiAsyncResult × Bool
  | 0, s => (s, [], false)
  | fuel + 1, s =>
    match s.scanMonitorStateTransitions with
    | [] => (s, [], false)
    | t :: rest =>
      let hasScanMonitorRequest :=
        (nanoappHasScanMonitorRequest s t.nanoappInstanceId).1
      if scanMonitorIsInRequestedState s t.enable hasScanMonitorRequest then
        let p := postScanMonitorAsyncResultEvent s t.nanoappInstanceId
          success t.enable errorCode
        let s2 := { p.2.1 with scanMonitorStateTransitions := rest }
        let rec2 := wifiPendingLoop driver success errorCode fuel s2
        (rec2.1, p.2.2 ++ rec2.2.1, !p.1 || rec2.2.2)
      else if scanMonitorStateTransitionIsRequired s t.enable
          hasScanMonitorRequest then
        if driver.headD false then
          (s, [], false)
        else
          let p := postScanMonitorAsyncResultEvent s t.nanoappInstanceId
            false t.enable 1
          let s2 := { p.2.1 with scanMonitorStateTransitions := rest }
          let rec2 := wifiPendingLoop driver.tail success errorCode fuel s2
          (rec2.1, p.2.2 ++ rec2.2.1, !p.1 || rec2.2.2)
      else
        (s, [], false)

/-- `WifiRequestManager::handleScanMonitorStateChangeSync`
(`core/wifi_request_manager.cc:215`): pop the head transition, post its
async result (updating the scan-monitoring list on success), then process
the remaining queue.  Returns (state, posted events, fatal-error hit). -/
def handleScanMonitorStateChangeSync (driver : List Bool) (s : WifiState)
    (enabled : Bool) (errorCode : Nat) :
    WifiState × List WifiAsyncResult × Bool :=
  match s.scanMonitorStateTransitions with
  | [] => (s, [], false)
  | t :: rest =>
    let success := (errorCode == 0) && (t.enable == enabled)
    let p := postScanMonitorAsyncResultEvent s t.nanoappInstanceId success
      t.enable errorCode
    let s2 := { p.2.1 with scanMonitorStateTransitions := rest }
    let rec2 := wifiPendingLoop driver success errorCode rest.length s2
    (rec2.1, p.2.2 ++ rec2.2.1, !p.1 || rec2.2.2)

/-- Push onto the pending-transition FIFO
(`WifiRequestManager::addScanMonitorRequestToQueue`,
`core/wifi_request_manager.cc:134`; the bounded `ArrayQueue` push is
modelled as succeeding). -/
def pushScanMonitorTransition (s : WifiState) (instanceId : Nat)
    (enable : Bool) : WifiState :=
  { s with scanMonitorStateTransitions :=
      s.scanMonitorStateTransitions ++ [⟨instanceId, enable⟩] }

/-- `WifiRequestManager::configureScanMonitor`
(`core/wifi_request_manager.cc:39`), faithful to the source: the calls at
lines 47 and 52 pass the `uint32_t` `instanceId` where the `bool`
`nanoappHasRequest` parameter is expected, so the implicit C++ conversion
`instanceId != 0` is embedded literally.  `driverResult` is the synchronous
result of `PlatformWifi::configureScanMonitor`.  Returns
(success, new state, posted events, number of driver calls). -/
def configureScanMonitor (driverResult : Bool) (s : WifiState)
    (instanceId : Nat) (enable : Bool) :
    Bool × WifiState × List WifiAsyncResult × Nat :=
  if !s.scanMonitorStateTransitions.isEmpty then
    (true, pushScanMonitorTransition s instanceId enable, [], 0)
  else if scanMonitorIsInRequestedState s enable (instanceId != 0) then
    let p := postScanMonitorAsyncResultEvent s instanceId true enable 0
    (p.1, p.2.1, p.2.2, 0)
  else if scanMonitorStateTransitionIsRequired s enable (instanceId != 0) then
    let s1 := pushScanMonitorTransition s instanceId enable
    if driverResult then
      (true, s1, [], 1)
    else
      (false, s, [], 1)
  else
    (false, s, [], 0)

/-! ## Event loop (`core/event_loop.cc`) -/

/-- Reserved instance id `kSystemInstanceId` (`core/include/chre/core/event.h:30`). -/
def kSystemInstanceId : Nat := 0

/-- Reserved instance id `kBroadcastInstanceId`
(`core/include/chre/core/event.h:31`, `UINT32_MAX`). -/
def kBroadcastInstanceId : Nat := 4294967295

/-- An `Event` (`core/include/chre/core/event.h:36`): type tag, sender and
target instance ids, and whether a free callback was supplied.  `id`
identifies the allocation; the reference count is recovered as the number of
per-nanoapp queue slots holding the event. -/
structure EvEvent where
  id : Nat
  eventType : Nat
  senderInstanceId : Nat
  targetInstanceId : Nat
  hasFreeCallback : Bool
deriving DecidableEq

/-- A `Nanoapp` as the event loop sees it: identity, system flag, the set of
broadcast event types it registered for, and its pending-event queue.
The class itself is not under `src/`; the fields are those the event-loop
code reads (`getInstanceId`, `getAppId`, `isSystemNanoapp`,
`isRegisteredForBroadcastEvent`, the event queue). -/
structure EvNanoapp where
  instanceId : Nat
  appId : Nat
  isSystem : Bool
  registrations : List Nat
  queue : List EvEvent
deriving DecidableEq

/-- Observable actions of the event loop: an event handed to a nanoapp's
handler, an event's free callback invoked, a nanoapp's `end` entry point
invoked. -/
inductive LoopAction where
  | delivered (instanceId : Nat) (eventId : Nat)
  | freed (eventId : Nat)
  | ended (instanceId : Nat)
deriving DecidableEq

/-- The state of `EventLoop` relevant to the drain claims: the nanoapp list
and the inbound queue `mEvents`. -/
structure EventLoopState where
  nanoapps : List EvNanoapp
  inbound : List EvEvent
deriving DecidableEq

/-- Reference count of an event: the number of per-nanoapp queue entries
holding it (`Event::incrementRefCount` on append,
decrement on `processNextEvent`). -/
def refCount (apps : List EvNanoapp) (eid : Nat) : Nat :=
  (apps.map (fun a => a.queue.countP (fun e => e.id == eid))).sum

/-- The free-callback part of `EventLoop::freeEvent`
(`core/event_loop.cc:339`): the callback runs only when one was supplied. -/
def freeEventTrace (e : EvEvent) : List LoopAction :=
  if e.hasFreeCallback then [LoopAction.freed e.id] else []

/-- `EventLoop::lookupAppByInstanceId` (`core/event_loop.cc:360`): the
system instance id short-circuits to null without consulting the list. -/
def lookupAppByInstanceId (apps : List EvNanoapp) (instanceId : Nat) :
    Option EvNanoapp :=
  if instanceId != kSystemInstanceId then
    apps.find? (fun a => a.instanceId == instanceId)
  else
    none

/-- The `mCurrentApp` value in effect while `EventLoop::freeEvent`
(`core/event_loop.cc:339`) runs an event's free callback: the result of
`lookupAppByInstanceId(event->senderInstanceId)`. -/
def freeEventCurrentApp (apps : List EvNanoapp) (e : EvEvent) : Option Nat :=
  (lookupAppByInstanceId apps e.senderInstanceId).map (fun a => a.instanceId)

/-- The condition of `EventLoop::distributeEvent`
(`core/event_loop.cc:311`) under which nanoapp `a` receives event `e`. -/
def targetsApp (e : EvEvent) (a : EvNanoapp) : Bool :=
  (e.targetInstanceId == kBroadcastInstanceId
      && a.registrations.contains e.eventType)
    || e.targetInstanceId == a.instanceId

/-- The fan-out loop of `EventLoop::distributeEvent`
(`core/event_loop.cc:310`): appends the event to each interested nanoapp's
queue; the second component is the event's reference count after fan-out
(one increment per append, starting from zero for a fresh event). -/
def distributeEventGo (e : EvEvent) : List EvNanoapp → List EvNanoapp × Nat
  | [] => ([], 0)
  | a :: rest =>
    let r := distributeEventGo e rest
    if targetsApp e a then
      ({ a with queue := a.queue ++ [e] } :: r.1, r.2 + 1)
    else
      (a :: r.1, r.2)

/-- Result of `EventLoop::distributeEvent`. -/
structure DistributeResult where
  nanoapps : List EvNanoapp
  refCount : Nat
  freeCallbackRun : Bool
  dropLogged : Bool
deriving DecidableEq

/-- `EventLoop::distributeEvent` (`core/event_loop.cc:306`): fan out, then
if the event is still unreferenced free it (running its callback when
present), logging a drop only when the sender is not the system instance. -/
def distributeEvent (apps : List EvNanoapp) (e : EvEvent) : DistributeResult :=
  let r := distributeEventGo e apps
  if r.2 == 0 then
    ⟨r.1, r.2, e.hasFreeCallback, e.senderInstanceId != kSystemInstanceId⟩
  else
    ⟨r.1, r.2, false, false⟩

/-- One round of `EventLoop::deliverEvents` (`core/event_loop.cc:279`),
walking the nanoapp list in order; `done` is the reversed processed prefix
(kept because `deliverNextEvent` checks the event's reference count against
the whole list).  Returns the updated list, the trace, and the
`havePendingEvents` flag. -/
def deliverEventsGo (done : List EvNanoapp) :
    List EvNanoapp → List EvNanoapp × List LoopAction × Bool
  | [] => (done.reverse, [], false)
  | a :: rest =>
    match a.queue with
    | [] => deliverEventsGo (a :: done) rest
    | e :: q =>
      let a2 := { a with queue := q }
      let freedTr :=
        if refCount (done ++ a2 :: rest) e.id == 0 then freeEventTrace e
        else []
      let r := deliverEventsGo (a2 :: done) rest
      (r.1, LoopAction.delivered a.instanceId e.id :: freedTr ++ r.2.1,
        !q.isEmpty || r.2.2)

/-- `EventLoop::deliverEvents` (`core/event_loop.cc:279`). -/
def deliverEvents (apps : List EvNanoapp) :
    List EvNanoapp × List LoopAction × Bool :=
  deliverEventsGo [] apps

/-- A nanoapp after one delivery round: its queue loses its head. -/
def popHeadApp (a : EvNanoapp) : EvNanoapp :=
  { a with queue := a.queue.tail }

/-- A nanoapp with its queue fully drained. -/
def clearQueue (a : EvNanoapp) : EvNanoapp :=
  { a with queue := [] }

/-- Total number of events pending in per-nanoapp queues. -/
def totalPending (apps : List EvNanoapp) : Nat :=
  (apps.map (fun a => a.queue.length)).sum

/-- The `while (deliverEvents())` loop
(`EventLoop::flushNanoappEventQueues`, `core/event_loop.cc:335`), with
explicit fuel; `flushNanoappEventQueues` supplies fuel sufficient to drain
(each round pops the head of every non-empty queue). -/
def flushLoop : Nat → List EvNanoapp → List EvNanoapp × List LoopAction
  | 0, apps => (apps, [])
  | n + 1, apps =>
    let r := deliverEvents apps
    if r.2.2 then
      let r2 := flushLoop n r.1
      (r2.1, r.2.1 ++ r2.2)
    else
      (r.1, r.2.1)

/-- `EventLoop::flushNanoappEventQueues` (`core/event_loop.cc:335`). -/
def flushNanoappEventQueues (apps : List EvNanoapp) :
    List EvNanoapp × List LoopAction :=
  flushLoop (totalPending apps) apps

/-- The `while (!mEvents.empty()) freeEvent(mEvents.pop())` purge in
`EventLoop::run` (`core/event_loop.cc:112`): inbound events are freed, not
distributed. -/
def purgeInbound : List EvEvent → List LoopAction
  | [] => []
  | e :: rest => freeEventTrace e ++ purgeInbound rest

/-- The `while (!mNanoapps.empty()) unloadNanoappAtIndex(mNanoapps.size()-1)`
loop in `EventLoop::run` (`core/event_loop.cc:117`):
`unloadNanoappAtIndex` (`core/event_loop.cc:374`) calls `end` and erases. -/
def unloadAllAux : Nat → List EvNanoapp → List LoopAction
  | 0, _ => []
  | n + 1, apps =>
    match apps.getLast? with
    | none => []
    | some a => LoopAction.ended a.instanceId :: unloadAllAux n apps.dropLast

/-- Unload every remaining nanoapp, highest index first. -/
def unloadAll (apps : List EvNanoapp) : List LoopAction :=
  unloadAllAux apps.length apps

/-- The shutdown drain of `EventLoop::run` after the main loop exits
(`core/event_loop.cc:111`): flush per-nanoapp queues, then free (without
distributing) everything left in the inbound queue, then unload all
nanoapps from the back. -/
def codeShutdownDrain (s : EventLoopState) : List LoopAction :=
  let f := flushNanoappEventQueues s.nanoapps
  f.2 ++ purgeInbound s.inbound ++ unloadAll f.1

/-- Distribute a list of inbound events in order, collecting the free
callbacks of undeliverable events. -/
def distributeAll : List EvNanoapp → List EvEvent →
    List EvNanoapp × List LoopAction
  | apps, [] => (apps, [])
  | apps, e :: rest =>
    let r := distributeEvent apps e
    let tr1 := if r.refCount == 0 then freeEventTrace e else []
    let r2 := distributeAll r.nanoapps rest
    (r2.1, tr1 ++ r2.2)

/-- The shutdown drain in the order the claim states it: (a) flush all
inbound events through distribute, (b) deliver until the per-nanoapp queues
drain, (c) unload every remaining nanoapp in reverse index order.  This
definition follows the claim's words, for comparison with
`codeShutdownDrain`. -/
def claimShutdownDrain (s : EventLoopState) : List LoopAction :=
  let d := distributeAll s.nanoapps s.inbound
  let f := flushNanoappEventQueues d.1
  d.2 ++ f.2 ++ unloadAll f.1

/-- State touched by `EventLoop::postEvent` (`core/event_loop.cc:222`):
the running flag, the number of free slots of the event pool, and the
occupancy and capacity of the inbound queue.  Modelled from the spec where
the header is missing: the pool and the inbound queue are bounded, and a
full queue rejects the push. -/
structure PostEventState where
  running : Bool
  poolFree : Nat
  inboundCount : Nat
  inboundCap : Nat
deriving DecidableEq

/-- `EventLoop::postEvent` (`core/event_loop.cc:222`): fail when not
running; allocate from the pool (fail when exhausted); push onto the
inbound queue (fail when full, the allocated event staying unreclaimed). -/
def postEvent (s : PostEventState) : Bool × PostEventState :=
  if s.running then
    if s.poolFree != 0 then
      let s1 := { s with poolFree := s.poolFree - 1 }
      if s1.inboundCount < s1.inboundCap then
        (true, { s1 with inboundCount := s1.inboundCount + 1 })
      else
        (false, s1)
    else
      (false, s)
  else
    (false, s)

/-! ## Nanoapp start (`core/event_loop.cc:124`) -/

/-- Entry-point invocations observable while starting a nanoapp. -/
inductive EntryPointCall where
  | startCall (instanceId : Nat)
  | endCall (instanceId : Nat)
deriving DecidableEq

/-- A nanoapp presented to `startNanoapp`, with the value its `start` entry
point will return. -/
structure StartableApp where
  appId : Nat
  isSystem : Bool
  startReturns : Bool
deriving DecidableEq

/-- State for `EventLoop::startNanoapp`: the nanoapp list, the remaining
allocation capacity (`prepareForPush` fails when exhausted), and the next
instance id to assign. -/
structure LifecycleState where
  nanoapps : List EvNanoapp
  capacityLeft : Nat
  nextInstanceId : Nat
deriving DecidableEq

/-- `EventLoop::startNanoapp` (`core/event_loop.cc:124`): reject a
duplicate `app_id`; reject when capacity is exhausted; otherwise assign a
fresh instance id, push the record, call `start`, and on a false return
pop the record back off without calling `end`.  Returns
(success, new state, entry-point trace). -/
def startNanoapp (s : LifecycleState) (app : StartableApp) :
    Bool × LifecycleState × List EntryPointCall :=
  if s.nanoapps.any (fun a => a.appId == app.appId) then
    (false, s, [])
  else if s.capacityLeft == 0 then
    (false, s, [])
  else
    let iid := s.nextInstanceId
    let record : EvNanoapp := ⟨iid, app.appId, app.isSystem, [], []⟩
    let s1 : LifecycleState :=
      ⟨s.nanoapps ++ [record], s.capacityLeft - 1, iid + 1⟩
    if app.startReturns then
      (true, s1, [EntryPointCall.startCall iid])
    else
      (false, { s1 with nanoapps := s.nanoapps },
        [EntryPointCall.startCall iid])

/-! ## Request multiplexer (spec §4.3; header not under `src/`) -/

/-- Modelled from the spec: the pure operations a request type supplies to
`RequestMultiplexer` — the default-constructed identity, the merge
(`generateIntersectionOf`) and the equivalence test (`isEquivalentTo`), as
exercised by `core/tests/request_multiplexer_test.cc`. -/
structure RequestOps (R : Type) where
  dflt : R
  merge : R → R → R
  equiv : R → R → Bool

/-- Modelled from the spec: `RequestMultiplexer<R>` — an ordered sequence of
requests plus the cached maximal request. -/
structure RequestMultiplexer (R : Type) where
  requests : List R
  currentMaximalRequest : R

/-- The fold of the merge over stored requests, starting from the
default-constructed identity (spec §4.3). -/
def maximalOf {R : Type} (ops : RequestOps R) (rs : List R) : R :=
  rs.foldl ops.merge ops.dflt

/-- Modelled from the spec: a default-constructed `RequestMultiplexer<R>`. -/
def emptyMux {R : Type} (ops : RequestOps R) : RequestMultiplexer R :=
  ⟨[], ops.dflt⟩

/-- Modelled from the spec: `RequestMultiplexer::getCurrentMaximalRequest`
returns the cached maximal. -/
def getCurrentMaximalRequest {R : Type} (m : RequestMultiplexer R) : R :=
  m.currentMaximalRequest

/-- Modelled from the spec: `RequestMultiplexer::addRequest` — append,
recompute the maximal, report through the out-parameter whether it
changed. -/
def addRequest {R : Type} (ops : RequestOps R) (m : RequestMultiplexer R)
    (r : R) : RequestMultiplexer R × Bool :=
  let requests := m.requests ++ [r]
  let newMaximal := maximalOf ops requests
  (⟨requests, newMaximal⟩, !ops.equiv m.currentMaximalRequest newMaximal)

/-- Modelled from the spec: `RequestMultiplexer::removeRequest` — erase the
request at an index, recompute the maximal, report whether it changed. -/
def removeRequest {R : Type} (ops : RequestOps R) (m : RequestMultiplexer R)
    (index : Nat) : RequestMultiplexer R × Bool :=
  let requests := m.requests.eraseIdx index
  let newMaximal := maximalOf ops requests
  (⟨requests, newMaximal⟩, !ops.equiv m.currentMaximalRequest newMaximal)

/-- One operation of a client-visible multiplexer history. -/
inductive MuxOp (R : Type) where
  | add (r : R)
  | remove (index : Nat)

/-- Apply one operation, returning the new multiplexer and the
`maximalRequestChanged` out-parameter. -/
def applyMuxOp {R : Type} (ops : RequestOps R) (m : RequestMultiplexer R) :
    MuxOp R → RequestMultiplexer R × Bool
  | MuxOp.add r => addRequest ops m r
  | MuxOp.remove index => removeRequest ops m index

/-- Apply a sequence of operations. -/
def applyMuxOps {R : Type} (ops : RequestOps R) (m : RequestMultiplexer R) :
    List (MuxOp R) → RequestMultiplexer R
  | [] => m
  | op :: rest => applyMuxOps ops (applyMuxOp ops m op).1 rest

/-! ## Host socket client reconnect (`host/common/socket_client.cc:165`) -/

/-- The 5-minute backoff cap, in milliseconds
(`host/common/socket_client.cc:167`). -/
def kMaxDelayMs : Nat := 300000

/-- One backoff update of `SocketClient::reconnect`
(`host/common/socket_client.cc:182`): double, then clamp to the cap. -/
def doubleCap (d : Nat) : Nat :=
  if d * 2 > kMaxDelayMs then kMaxDelayMs else d * 2

/-- The retry loop of `SocketClient::reconnect`
(`host/common/socket_client.cc:170`): each iteration waits `delay`
milliseconds, attempts to connect (`outcome attempt`), and on failure
doubles the delay up to the cap.  `mGracefulShutdown` stays false (no
shutdown interrupt).  Fuel is the remaining loop iterations; `while
(--retryLimit > 0)` with `retryLimit = 40` executes the body at most 39
times.  Returns (waits before each attempt, number of
`onSocketReconnected` calls, return value). -/
def reconnectAux (outcome : Nat → Bool) :
    Nat → Nat → Nat → List Nat × Nat × Bool
  | _, _, 0 => ([], 0, false)
  | attempt, delay, fuel + 1 =>
    if outcome attempt then
      ([delay], 1, true)
    else
      let r := reconnectAux outcome (attempt + 1) (doubleCap delay) fuel
      (delay :: r.1, r.2.1, r.2.2)

/-- `SocketClient::reconnect` (`host/common/socket_client.cc:165`):
initial delay 500 ms, retry limit 40 (39 executed attempts). -/
def reconnect (outcome : Nat → Bool) : List Nat × Nat × Bool :=
  reconnectAux outcome 0 500 39

/-! ## Theorems -/

/-- Claim C1 (code bug): a completed successful enable transition does not
add the requesting nanoapp to `mScanMonitorNanoapps`.  Starting from an
empty monitoring list with the single pending transition
`(instance 1, enable)`, the driver completion `(enabled = true,
error = NONE)` posts a success async-result to nanoapp 1 but leaves the
monitoring list empty, where the claim requires it to become `[1]`:
`nanoappHasScanMonitorRequest` (`core/wifi_request_manager.cc:113`) computes
`index == size()`, which is true exactly when the nanoapp is absent, so
`updateNanoappScanMonitoringList` skips the `push_back` its own comments
call for. -/
theorem c1_successful_enable_not_recorded :
    handleScanMonitorStateChangeSync [] ⟨[], [⟨1, true⟩]⟩ true 0
      = (⟨[], []⟩, [⟨1, true, 0⟩], false) := by
  rfl

/-- Claim C2 (confirmed, spec-modelled): after any sequence of
`addRequest`/`removeRequest` operations from the default multiplexer, the
cached value returned by `getCurrentMaximalRequest` equals the fold of the
merge over the stored requests starting from the default identity, and each
operation's out-parameter reports whether the maximal changed (up to the
request type's equivalence test). -/
theorem c2_multiplexer_maximal_invariant :
    ∀ (R : Type) (ops : RequestOps R) (l : List (MuxOp R)),
      (getCurrentMaximalRequest (applyMuxOps ops (emptyMux ops) l)
        = maximalOf ops (applyMuxOps ops (emptyMux ops) l).requests)
      ∧ ∀ (m : RequestMultiplexer R) (r : R) (index : Nat),
          ((addRequest ops m r).2
            = !ops.equiv (getCurrentMaximalRequest m)
                (getCurrentMaximalRequest (addRequest ops m r).1))
          ∧ ((removeRequest ops m index).2
            = !ops.equiv (getCurrentMaximalRequest m)
                (getCurrentMaximalRequest (removeRequest ops m index).1)) := by
  intro R ops l
  refine ⟨?_, fun m r index => ⟨rfl, rfl⟩⟩
  have main : ∀ (l : List (MuxOp R)) (m : RequestMultiplexer R),
      m.currentMaximalRequest = maximalOf ops m.requests →
      (applyMuxOps ops m l).currentMaximalRequest
        = maximalOf ops (applyMuxOps ops m l).requests := by
    intro l
    induction l with
    | nil => intro m hm; exact hm
    | cons op rest ih =>
      intro m _
      cases op with
      | add r => exact ih _ rfl
      | remove index => exact ih _ rfl
  exact main l (emptyMux ops) rfl

/-- Claim C4 counterexample: merging
`SensorRequest(ActiveContinuous, 10 ns, 20 ns)` with the
default-constructed request yields `(ActiveContinuous, 0, 0)`, which is not
equivalent to the original request, refuting the identity claim. -/
theorem c4_default_merge_counterexample :
    (SensorRequest.generateIntersectionOf
        ⟨SensorMode.activeContinuous, 10, 20⟩ sensorRequestDefault
      ).isEquivalentTo ⟨SensorMode.activeContinuous, 10, 20⟩ = false := by
  decide

/-- Claim C4 as amended: merging `x` with the default-constructed
`SensorRequest` keeps `x`'s mode but takes the minimum with the default's
zero interval and zero latency, so the result is `(x.mode, 0, 0)`; it is
equivalent to `x` exactly when `x`'s interval and latency are both zero. -/
theorem c4_default_merge_amended :
    ∀ x : SensorRequest,
      x.generateIntersectionOf sensorRequestDefault = ⟨x.mode, 0, 0⟩
      ∧ ((x.generateIntersectionOf sensorRequestDefault).isEquivalentTo x
            = true ↔ x.interval = 0 ∧ x.latency = 0) := by
  intro x
  obtain ⟨m, i, l⟩ := x
  cases m <;>
    simp +decide [SensorRequest.generateIntersectionOf, sensorRequestDefault,
      SensorRequest.isEquivalentTo, Nat.min_zero] <;> omega

/-- Claim C5 (code bug): with one nanoapp (instance 5) monitoring and no
pending transition, a `configureScanMonitor(disable)` call from nanoapp 1 —
which has no active scan-monitor request, so per the claim's
`in_requested_state(enable, has_req)` predicate it should receive an
immediate synchronous-success async result — instead enqueues a transition
and calls the driver once: lines 47 and 52 of
`core/wifi_request_manager.cc` pass the `uint32_t` instance id where the
`bool nanoappHasRequest` parameter is expected, so `has_req` degenerates to
`instanceId != 0`. -/
theorem c5_configure_uses_instance_id_as_bool :
    configureScanMonitor true ⟨[5], []⟩ 1 false
      = (true, ⟨[5], [⟨1, false⟩]⟩, [], 1)
    ∧ ([5] : List Nat).contains 1 = false
    ∧ scanMonitorIsInRequestedState ⟨[5], []⟩ false false = true := by
  refine ⟨rfl, rfl, rfl⟩

/-- Claim C6 counterexample: with the loop running and the event pool
non-empty but the inbound queue at capacity, `postEvent` returns false,
refuting the claim that it fails only when stopping or on pool
exhaustion. -/
theorem c6_postEvent_counterexample :
    (postEvent ⟨true, 1, 4, 4⟩).1 = false
    ∧ (⟨true, 1, 4, 4⟩ : PostEventState).running = true
    ∧ (⟨true, 1, 4, 4⟩ : PostEventState).poolFree ≠ 0 := by
  decide

/-- Claim C6 as amended: `postEvent` returns false exactly when the loop is
stopping, the event pool is exhausted, or the bounded inbound queue is
full; in every other case it enqueues the event and returns true. -/
theorem c6_postEvent_amended :
    ∀ s : PostEventState,
      ((postEvent s).1
        = (s.running && s.poolFree != 0
            && decide (s.inboundCount < s.inboundCap)))
      ∧ ((postEvent s).2.inboundCount
        = if (postEvent s).1 = true then s.inboundCount + 1
          else s.inboundCount) := by
  intro s
  obtain ⟨run, pf, cnt, cap⟩ := s
  cases run <;> cases pf <;> by_cases h : cnt < cap <;>
    simp [postEvent, h]

/-- Claim C7 (confirmed): `startNanoapp` fails exactly when an app with the
same `app_id` already exists, when capacity is exhausted, or when the app's
`start` entry point returns false; the nanoapp record is added exactly on
success (in the start-returns-false case it is popped back off), and the
`end` entry point is never invoked by `startNanoapp`. -/
theorem c7_startNanoapp_failure_cases :
    ∀ (s : LifecycleState) (app : StartableApp),
      ((startNanoapp s app).1 = false
        ↔ s.nanoapps.any (fun a => a.appId == app.appId) = true
          ∨ s.capacityLeft = 0 ∨ app.startReturns = false)
      ∧ ((startNanoapp s app).2.1.nanoapps
        = if (startNanoapp s app).1 = true
          then s.nanoapps
            ++ [⟨s.nextInstanceId, app.appId, app.isSystem, [], []⟩]
          else s.nanoapps)
      ∧ (∀ iid, EntryPointCall.endCall iid ∉ (startNanoapp s app).2.2) := by
  intro s app
  by_cases hdup : s.nanoapps.any (fun a => a.appId == app.appId) = true
  · simp [startNanoapp, hdup]
  · by_cases hcap : s.capacityLeft = 0
    · simp [startNanoapp, hdup, hcap]
    · cases hstart : app.startReturns <;>
        simp [startNanoapp, hdup, hcap, hstart]

/-- Claim C10 (confirmed): `lookupAppByInstanceId` applied to the system
instance id returns null regardless of the nanoapp list, and therefore the
current-nanoapp pointer in effect while `freeEvent` runs the free callback
of a system-sent event is null. -/
theorem c10_system_sender_null_context :
    ∀ (apps : List EvNanoapp) (eid etype target : Nat) (cb : Bool),
      lookupAppByInstanceId apps kSystemInstanceId = none
      ∧ freeEventCurrentApp apps ⟨eid, etype, kSystemInstanceId, target, cb⟩
          = none := by
  intro apps eid etype target cb
  refine ⟨?_, ?_⟩ <;>
    simp [lookupAppByInstanceId, freeEventCurrentApp, kSystemInstanceId]

/-- The fan-out loop of `distributeEvent` appends the event to exactly the
interested nanoapps and counts one reference per append. -/
theorem distributeEventGo_spec (e : EvEvent) :
    ∀ apps : List EvNanoapp,
      distributeEventGo e apps
        = (apps.map (fun a =>
              if targetsApp e a then { a with queue := a.queue ++ [e] }
              else a),
            apps.countP (targetsApp e)) := by
  intro apps
  induction apps with
  | nil => rfl
  | cons a rest ih =>
    by_cases h : targetsApp e a <;>
      simp [distributeEventGo, ih, List.countP_cons, h]

/-- Claim C8 (confirmed): `distributeEvent` appends the event to nanoapp
`a`'s queue exactly when the event targets the broadcast id and `a` is
registered for the event type, or the event targets `a`'s instance id; the
event's reference count after fan-out is the number of receiving apps; when
it is still zero the free callback (if any) is invoked, and a drop is
logged exactly when additionally the sender is not the system instance. -/
theorem c8_distributeEvent_fanout :
    ∀ (apps : List EvNanoapp) (e : EvEvent),
      ((distributeEvent apps e).nanoapps
        = apps.map (fun a =>
            if targetsApp e a then { a with queue := a.queue ++ [e] }
            else a))
      ∧ (distributeEvent apps e).refCount = apps.countP (targetsApp e)
      ∧ ((distributeEvent apps e).freeCallbackRun
        = ((apps.countP (targetsApp e) == 0) && e.hasFreeCallback))
      ∧ ((distributeEvent apps e).dropLogged
        = ((apps.countP (targetsApp e) == 0)
            && (e.senderInstanceId != kSystemInstanceId))) := by
  intro apps e
  by_cases h : apps.countP (targetsApp e) = 0 <;>
    simp [distributeEvent, distributeEventGo_spec, h]

/-- One delivery round pops the head of every non-empty per-nanoapp queue,
and reports pending work exactly when some queue still holds an event. -/
theorem deliverEventsGo_spec :
    ∀ (l done : List EvNanoapp),
      (deliverEventsGo done l).1 = done.reverse ++ l.map popHeadApp
      ∧ (deliverEventsGo done l).2.2
          = l.any (fun a => !a.queue.tail.isEmpty) := by
  intro l
  induction l with
  | nil => intro done; simp [deliverEventsGo]
  | cons a rest ih =>
    intro done
    obtain ⟨iid, aid, sys, regs, q⟩ := a
    cases q with
    | nil =>
      have h := ih (⟨iid, aid, sys, regs, []⟩ :: done)
      simp [deliverEventsGo, popHeadApp, h.1, h.2]
    | cons e q =>
      have h := ih (⟨iid, aid, sys, regs, q⟩ :: done)
      simp [deliverEventsGo, popHeadApp, h.1, h.2]

/-- Nanoapps whose queues are already empty are fixed by `clearQueue`. -/
theorem map_clear_of_empty :
    ∀ apps : List EvNanoapp, (∀ a ∈ apps, a.queue = []) →
      apps.map clearQueue = apps := by
  intro apps h
  induction apps with
  | nil => rfl
  | cons a rest ih =>
    obtain ⟨iid, aid, sys, regs, q⟩ := a
    have hq : q = [] := h _ (List.mem_cons_self _ _)
    subst hq
    simp [clearQueue, ih (fun x hx => h x (List.mem_cons_of_mem _ hx))]

/-- With fuel bounding every queue length, the deliver-until-quiet loop
fully drains all per-nanoapp queues. -/
theorem flushLoop_clear :
    ∀ (fuel : Nat) (apps : List EvNanoapp),
      (∀ a ∈ apps, a.queue.length ≤ fuel) →
      (flushLoop fuel apps).1 = apps.map clearQueue := by
  intro fuel
  induction fuel with
  | zero =>
    intro apps h
    have hempty : ∀ a ∈ apps, a.queue = [] := by
      intro a ha
      exact List.eq_nil_of_length_eq_zero (Nat.le_zero.mp (h a ha))
    simpa [flushLoop] using (map_clear_of_empty apps hempty).symm
  | succ n ih =>
    intro apps h
    have hd := deliverEventsGo_spec apps []
    have hfst : (deliverEvents apps).1 = apps.map popHeadApp := by
      simpa [deliverEvents] using hd.1
    have hpend : (deliverEvents apps).2.2
        = apps.any (fun a => !a.queue.tail.isEmpty) := by
      simpa [deliverEvents] using hd.2
    cases hp : (deliverEvents apps).2.2 with
    | false =>
      have hfalse : apps.any (fun a => !a.queue.tail.isEmpty) = false := by
        rw [← hpend]
        exact hp
      have hall : ∀ a ∈ apps, a.queue.tail = [] := by
        intro a ha
        have hx := (List.any_eq_false.mp hfalse) a ha
        simpa using hx
      have : apps.map popHeadApp = apps.map clearQueue := by
        apply List.map_congr_left
        intro a ha
        simp [popHeadApp, clearQueue, hall a ha]
      simp [flushLoop, hp, hfst, this]
    | true =>
      have hrec : ∀ a ∈ apps.map popHeadApp, a.queue.length ≤ n := by
        intro a ha
        obtain ⟨b, hb, rfl⟩ := List.mem_map.mp ha
        have := h b hb
        simp [popHeadApp, List.length_tail]
        omega
      have := ih (apps.map popHeadApp) hrec
      have hcomp : (apps.map popHeadApp).map clearQueue
          = apps.map clearQueue := by
        rw [List.map_map]
        rfl
      simp [flushLoop, hp, hfst, this, hcomp]

/-- `flushNanoappEventQueues` leaves every per-nanoapp queue empty. -/
theorem flushNanoappEventQueues_clear :
    ∀ apps : List EvNanoapp,
      (flushNanoappEventQueues apps).1 = apps.map clearQueue := by
  intro apps
  apply flushLoop_clear
  intro a ha
  exact List.single_le_sum (fun x _ => Nat.zero_le x) _
    (List.mem_map_of_mem _ ha)

/-- Purging the inbound queue fires exactly the free callbacks of the
events that have one, in queue order, without delivering anything. -/
theorem purgeInbound_eq :
    ∀ l : List EvEvent,
      purgeInbound l
        = (l.filter (fun e => e.hasFreeCallback)).map
            (fun e => LoopAction.freed e.id) := by
  intro l
  induction l with
  | nil => rfl
  | cons e rest ih =>
    cases h : e.hasFreeCallback <;>
      simp [purgeInbound, freeEventTrace, List.filter_cons, h, ih]

/-- The back-to-front unload loop calls `end` in reverse index order. -/
theorem unloadAllAux_eq :
    ∀ (n : Nat) (apps : List EvNanoapp), apps.length ≤ n →
      unloadAllAux n apps
        = apps.reverse.map (fun a => LoopAction.ended a.instanceId) := by
  intro n
  induction n with
  | zero =>
    intro apps h
    have : apps = [] := List.eq_nil_of_length_eq_zero (Nat.le_zero.mp h)
    subst this
    rfl
  | succ n ih =>
    intro apps h
    cases apps using List.reverseRecOn with
    | nil => rfl
    | append_singleton l a =>
      have hl : l.length ≤ n := by
        simp at h
        omega
      simp [unloadAllAux, List.getLast?_concat, List.dropLast_concat,
        ih l hl]

/-- Every remaining nanoapp is unloaded in reverse index order. -/
theorem unloadAll_eq :
    ∀ apps : List EvNanoapp,
      unloadAll apps
        = apps.reverse.map (fun a => LoopAction.ended a.instanceId) := by
  intro apps
  exact unloadAllAux_eq apps.length apps (Nat.le_refl _)

/-- Claim C3 counterexample: with one nanoapp subscribed to type 256 with
an empty queue and one broadcast event of type 256 (from non-system sender
9, with a free callback) still inbound, the drain performed by the code
frees the event without delivering it and the drain the claim describes
delivers it first, so their traces differ. -/
theorem c3_drain_order_counterexample :
    codeShutdownDrain
        ⟨[⟨7, 100, false, [256], []⟩],
          [⟨1, 256, 9, kBroadcastInstanceId, true⟩]⟩
      ≠ claimShutdownDrain
        ⟨[⟨7, 100, false, [256], []⟩],
          [⟨1, 256, 9, kBroadcastInstanceId, true⟩]⟩ := by
  decide

/-- Claim C3 as amended: when `EventLoop::run` exits its main loop it
(a) calls deliver repeatedly until all per-nanoapp queues drain, then
(b) frees every event remaining in the inbound queue — running its free
callback, without distributing it — and then (c) unloads every remaining
nanoapp in reverse index order. -/
theorem c3_drain_order_amended :
    ∀ s : EventLoopState,
      codeShutdownDrain s
        = (flushNanoappEventQueues s.nanoapps).2
          ++ (s.inbound.filter (fun e => e.hasFreeCallback)).map
              (fun e => LoopAction.freed e.id)
          ++ s.nanoapps.reverse.map (fun a => LoopAction.ended a.instanceId)
      ∧ (flushNanoappEventQueues s.nanoapps).1
          = s.nanoapps.map clearQueue := by
  intro s
  refine ⟨?_, flushNanoappEventQueues_clear s.nanoapps⟩
  simp only [codeShutdownDrain]
  rw [purgeInbound_eq, flushNanoappEventQueues_clear, unloadAll_eq]
  have : (s.nanoapps.map clearQueue).reverse.map
      (fun a => LoopAction.ended a.instanceId)
      = s.nanoapps.reverse.map (fun a => LoopAction.ended a.instanceId) := by
    rw [← List.map_reverse, List.map_map]
    rfl
  simp [this]

/-- The reconnect loop makes at most `fuel` attempts. -/
theorem reconnectAux_length_le :
    ∀ (fuel attempt delay : Nat) (outcome : Nat → Bool),
      (reconnectAux outcome attempt delay fuel).1.length ≤ fuel := by
  intro fuel
  induction fuel with
  | zero => intro attempt delay outcome; simp [reconnectAux]
  | succ n ih =>
    intro attempt delay outcome
    cases h : outcome attempt <;>
      simp [reconnectAux, h, Nat.succ_le_succ (ih _ _ outcome)]

/-- The wait before the `k`-th attempt is the `k`-fold double-and-cap of
the initial delay. -/
theorem reconnectAux_waits :
    ∀ (fuel attempt delay : Nat) (outcome : Nat → Bool) (k : Nat),
      k < (reconnectAux outcome attempt delay fuel).1.length →
      (reconnectAux outcome attempt delay fuel).1.getD k 0
        = doubleCap^[k] delay := by
  intro fuel
  induction fuel with
  | zero => intro attempt delay outcome k hk; simp [reconnectAux] at hk
  | succ n ih =>
    intro attempt delay outcome k hk
    cases h : outcome attempt with
    | true =>
      simp [reconnectAux, h] at hk ⊢
      subst hk
      simp
    | false =>
      cases k with
      | zero => simp [reconnectAux, h]
      | succ k =>
        have hk2 : k
            < (reconnectAux outcome (attempt + 1) (doubleCap delay) n).1.length := by
          simpa [reconnectAux, h] using hk
        have hrw := ih (attempt + 1) (doubleCap delay) outcome k hk2
        simp only [reconnectAux, h, Bool.false_eq_true, if_false,
          List.getD_cons_succ]
        rw [hrw, Function.iterate_succ_apply]

/-- The double-and-cap step maps a capped value to the next capped value. -/
theorem doubleCap_min :
    ∀ m : Nat, doubleCap (min m kMaxDelayMs) = min (m * 2) kMaxDelayMs := by
  intro m
  simp only [doubleCap, kMaxDelayMs, min_def]
  split_ifs <;> omega

/-- Closed form of the backoff sequence: starting from 500 ms, the wait
before the `k`-th attempt is `min (500 * 2 ^ k) kMaxDelayMs`. -/
theorem iterate_doubleCap :
    ∀ k : Nat, doubleCap^[k] 500 = min (500 * 2 ^ k) kMaxDelayMs := by
  intro k
  induction k with
  | zero => decide
  | succ k ih =>
    rw [Function.iterate_succ_apply', ih, doubleCap_min, pow_succ,
      ← Nat.mul_assoc]

/-- If the first `k` attempts fail and attempt `k` succeeds within the
retry budget, the loop returns true after exactly `k + 1` attempts and
calls `onSocketReconnected` exactly once. -/
theorem reconnectAux_first_success :
    ∀ (k fuel attempt delay : Nat) (outcome : Nat → Bool),
      (∀ i, i < k → outcome (attempt + i) = false) →
      outcome (attempt + k) = true → k < fuel →
      (reconnectAux outcome attempt delay fuel).2.2 = true
      ∧ (reconnectAux outcome attempt delay fuel).2.1 = 1
      ∧ (reconnectAux outcome attempt delay fuel).1.length = k + 1 := by
  intro k
  induction k with
  | zero =>
    intro fuel attempt delay outcome _ hk hfuel
    obtain ⟨f, rfl⟩ := Nat.exists_eq_succ_of_ne_zero (Nat.pos_iff_ne_zero.mp hfuel)
    have h0 : outcome attempt = true := by simpa using hk
    simp [reconnectAux, h0]
  | succ k ih =>
    intro fuel attempt delay outcome hbefore hk hfuel
    obtain ⟨f, rfl⟩ := Nat.exists_eq_succ_of_ne_zero
      (Nat.pos_iff_ne_zero.mp (Nat.lt_of_le_of_lt (Nat.zero_le _) hfuel))
    have h0 : outcome attempt = false := by
      simpa using hbefore 0 (Nat.succ_pos k)
    have hbefore2 : ∀ i, i < k → outcome (attempt + 1 + i) = false := by
      intro i hi
      have heq : attempt + 1 + i = attempt + (i + 1) := by omega
      rw [heq]
      exact hbefore (i + 1) (by omega)
    have hk2 : outcome (attempt + 1 + k) = true := by
      have heq : attempt + 1 + k = attempt + (k + 1) := by omega
      rw [heq]
      exact hk
    have hf : k < f := by omega
    have hrec := ih f (attempt + 1) (doubleCap delay) outcome hbefore2 hk2 hf
    simp [reconnectAux, h0, hrec.1, hrec.2.1, hrec.2.2]

/-- Claim C9 (confirmed): for any sequence of connection-attempt outcomes
whose first success is attempt `k` (attempts numbered from 0) within the
retry budget, `reconnect` returns true, calls `onSocketReconnected` exactly
once, makes `k + 1` attempts — in any case at most 40 — and the wait
before the `j`-th attempt is `min (500 * 2 ^ j)` and five minutes
(300000 ms). -/
theorem c9_reconnect_backoff (outcome : Nat → Bool) (k : Nat)
    (hbefore : ∀ i, i < k → outcome i = false)
    (hk : outcome k = true) (hlt : k < 39) :
    (reconnect outcome).2.2 = true
    ∧ (reconnect outcome).2.1 = 1
    ∧ (reconnect outcome).1.length = k + 1
    ∧ (reconnect outcome).1.length ≤ 40
    ∧ ∀ j, j < (reconnect outcome).1.length →
        (reconnect outcome).1.getD j 0
          = min (500 * 2 ^ j) kMaxDelayMs := by
  have hbefore0 : ∀ i, i < k → outcome (0 + i) = false := by
    intro i hi
    simpa using hbefore i hi
  have hk0 : outcome (0 + k) = true := by simpa using hk
  have hmain := reconnectAux_first_success k 39 0 500 outcome hbefore0 hk0 hlt
  refine ⟨hmain.1, hmain.2.1, hmain.2.2, ?_, ?_⟩
  · exact Nat.le_trans (reconnectAux_length_le 39 0 500 outcome) (by omega)
  · intro j hj
    rw [show (reconnect outcome).1 = (reconnectAux outcome 0 500 39).1 from rfl,
      reconnectAux_waits 39 0 500 outcome j hj, iterate_doubleCap]

/-- Witness for C9: outcomes failing at attempts 0 and 1 and succeeding at
attempt 2 give return value true, one `onSocketReconnected` call, and three
attempts. -/
theorem c9_reconnect_backoff_witness :
    (reconnect (fun i => i == 2)).2.2 = true
    ∧ (reconnect (fun i => i == 2)).2.1 = 1
    ∧ (reconnect (fun i => i == 2)).1.length = 2 + 1
    ∧ (reconnect (fun i => i == 2)).1.length ≤ 40
    ∧ ∀ j, j < (reconnect (fun i => i == 2)).1.length →
        (reconnect (fun i => i == 2)).1.getD j 0
          = min (500 * 2 ^ j) kMaxDelayMs := by
  exact c9_reconnect_backoff (fun i => i == 2) 2
    (by intro i hi; interval_cases i <;> rfl) rfl (by omega)

end Chre
